import Mathlib

/-!
Verification of the Aditi daily-updates dashboard core logic.

The development shallowly embeds the client-side data model and the
fetch/filter/aggregate/recovery logic of the two dashboard views
(the user view `UserDashboard` and the manager view `Dashboard`,
both in src/pages/user-dashboard.tsx). Timestamps are modelled as
milliseconds since the epoch (UTC); calendar dates as UTC day
indices; TypeScript string-typed enums stay strings; nullable
fields become `Option`; a fetch attempt outcome is an `Except`.
-/

/-- Milliseconds in one day. -/
def msPerDay : Nat := 86400000

/-- The UTC calendar date (day index) of a millisecond timestamp.
Models `new Date(t).toISOString().split('T')[0]` with ISO date
strings ordered exactly as day indices. -/
def dayOf (t : Nat) : Nat := t / msPerDay

/-- JavaScript truthiness of a nullable string field: null/undefined
and the empty string are falsy. -/
def optTruthy (o : Option String) : Bool :=
  match o with
  | none => false
  | some s => s ≠ ""

/-- One daily report row (table aditi_daily_updates). -/
structure DailyUpdate where
  id : String
  employee_email : String
  employee_name : String
  team_id : String
  created_at : Nat
  tasks_completed : String
  story_points : Option Int
  priority : String
  status : String
  blocker_type : Option String
  blocker_description : Option String
  additional_notes : Option String
deriving Repr, DecidableEq

/-- A date range filter: start and end calendar days (UTC day indices),
mirroring the `dateRange` state {start, end} of both dashboards. -/
structure DateRange where
  startD : Nat
  endD : Nat
deriving Repr, DecidableEq

/-- User-view fetch range: `.gte('created_at', start + 'T00:00:00.000Z')`
and `.lte('created_at', end + 'T23:59:59.999Z')` in `fetchUserUpdates`. -/
def userFetchInRange (r : DateRange) (t : Nat) : Bool :=
  decide (r.startD * msPerDay ≤ t) && decide (t ≤ r.endD * msPerDay + 86399999)

/-- Manager-view fetch range: `.gte('created_at', start + 'T00:00:00Z')`
and `.lte('created_at', end + 'T23:59:59Z')` in `fetchData` and
`fetchDataSilently` (second precision: the upper bound is 23:59:59.000). -/
def managerFetchInRange (r : DateRange) (t : Nat) : Bool :=
  decide (r.startD * msPerDay ≤ t) && decide (t ≤ r.endD * msPerDay + 86399000)

namespace UserView

/-- Stats of the user dashboard (`stats` state of `UserDashboard`). -/
structure Stats where
  totalUpdates : Nat
  completedTasks : Nat
  inProgressTasks : Nat
  blockedTasks : Nat
deriving Repr, DecidableEq

/-- `calculateStats` of the user dashboard: one pass of independent
status-equality counts over the given update list. -/
def calculateStats (updates : List DailyUpdate) : Stats :=
  { totalUpdates := updates.length
    completedTasks := (updates.filter (fun u => u.status == "completed")).length
    inProgressTasks := (updates.filter (fun u => u.status == "in-progress")).length
    blockedTasks := (updates.filter (fun u => u.status == "blocked")).length }

/-- The user-dashboard component state relevant to fetch and filtering. -/
structure State where
  userUpdates : List DailyUpdate
  filteredUpdates : List DailyUpdate
  stats : Stats
  activeFilter : String
  dataLoaded : Bool
  isLoading : Bool
deriving Repr, DecidableEq

/-- The status filter of `applyFilters` selected by `activeFilter`
(the switch over completed / in-progress / blocked; `all` and any
other value leave the list unchanged). -/
def filterByActive (activeFilter : String) (l : List DailyUpdate) : List DailyUpdate :=
  if activeFilter == "completed" then l.filter (fun u => u.status == "completed")
  else if activeFilter == "in-progress" then l.filter (fun u => u.status == "in-progress")
  else if activeFilter == "blocked" then l.filter (fun u => u.status == "blocked")
  else l

/-- `applyFilters` of the user dashboard: on an empty fetched set it only
clears `filteredUpdates`; otherwise it sets `filteredUpdates` to the
status-filtered list and recomputes `stats` over the FULL `userUpdates`
list (the source passes `userUpdates`, not `filtered`, to
`calculateStats`). -/
def applyFilters (s : State) : State :=
  if s.userUpdates.isEmpty then { s with filteredUpdates := [] }
  else
    { s with
      filteredUpdates := filterByActive s.activeFilter s.userUpdates
      stats := calculateStats s.userUpdates }

/-- `attemptFetch` inside `fetchUserUpdates`: try the query; on success
return the data; on failure increment `retryCount` and, while it is
below `maxRetries`, wait `1000 * retryCount` ms and retry, else
rethrow. The list gives the outcome of each successive attempt; the
result pairs the final outcome with the list of backoff delays slept. -/
def attemptFetch : List (Except String (List DailyUpdate)) → Nat → Nat →
    Except String (List DailyUpdate) × List Nat
  | [], _, _ => (Except.error "no outcome", [])
  | o :: rest, retryCount, maxRetries =>
    match o with
    | Except.ok d => (Except.ok d, [])
    | Except.error e =>
      let rc := retryCount + 1
      if rc < maxRetries then
        let r := attemptFetch rest rc maxRetries
        (r.1, 1000 * rc :: r.2)
      else (Except.error e, [])

/-- `maxRetries` of `fetchUserUpdates` in production mode. -/
def maxRetriesProd : Nat := 3

/-- `fetchUserUpdates` (production retry budget): run `attemptFetch`
from retryCount 0. On success, store the data and mark it loaded; on
final failure, surface one error toast and reset `userUpdates`,
`filteredUpdates` and the stats to empty. Returns the new state and
the number of error toasts shown. -/
def fetchUserUpdates (outcomes : List (Except String (List DailyUpdate)))
    (s : State) : State × Nat :=
  match (attemptFetch outcomes 0 maxRetriesProd).1 with
  | Except.ok data =>
    ({ s with userUpdates := data, dataLoaded := true, isLoading := false }, 0)
  | Except.error _ =>
    ({ s with
        userUpdates := []
        filteredUpdates := []
        stats := calculateStats []
        isLoading := false }, 1)

/-- `isTaskEditable`: admins and managers can edit any task; regular
users only tasks in To Do or In Progress status. -/
def isTaskEditable (role : String) (status : String) : Bool :=
  if role == "admin" || role == "manager" then true
  else status == "to-do" || status == "in-progress"

/-- Render condition of the edit button in the collapsed list-view row:
`(user.role === 'admin' || user.role === 'manager') || isTaskEditable(update.status)`. -/
def listViewShowsEdit (role status : String) : Bool :=
  (role == "admin" || role == "manager") || isTaskEditable role status

/-- The `disabled` attribute of the list-view edit button:
`user.role !== 'admin' && user.role !== 'manager' && update.status === 'completed'`. -/
def listViewEditDisabled (role status : String) : Bool :=
  (role != "admin") && (role != "manager") && (status == "completed")

/-- Render condition of the edit action in the expanded detail view:
`(user.role === 'admin' || user.role === 'manager') || isTaskEditable(update.status)`. -/
def detailViewShowsEdit (role status : String) : Bool :=
  (role == "admin" || role == "manager") || isTaskEditable role status

/-- The `disabled` attribute of the detail-view edit button:
`user.role !== 'admin' && user.role !== 'manager' && update.status === 'completed'`. -/
def detailViewEditDisabled (role status : String) : Bool :=
  (role != "admin") && (role != "manager") && (status == "completed")

end UserView

/-- Modelled from the spec (section 4.1 Edit Authorization Rule):
editing is permitted when the acting role is admin or manager
unconditionally, or the acting user owns the update and its status is
to-do or in-progress. Used to compare the code predicate with the
stated rule. -/
def editPermittedSpec (role : String) (ownsUpdate : Bool) (status : String) : Bool :=
  role == "admin" || role == "manager" ||
    (ownsUpdate && (status == "to-do" || status == "in-progress"))

namespace ManagerView

/-- Stats of the manager dashboard (`stats` state of `Dashboard`). -/
structure Stats where
  totalUpdates : Nat
  totalBlockers : Nat
  completedTasks : Nat
  inProgressTasks : Nat
  stuckTasks : Nat
deriving Repr, DecidableEq

/-- `calculateStats` of the manager dashboard: one pass of independent
counts over the given update list; `totalBlockers` counts rows whose
`blocker_type` is truthy. -/
def calculateStats (data : List DailyUpdate) : Stats :=
  { totalUpdates := data.length
    totalBlockers := (data.filter (fun u => optTruthy u.blocker_type)).length
    completedTasks := (data.filter (fun u => u.status == "completed")).length
    inProgressTasks := (data.filter (fun u => u.status == "in-progress")).length
    stuckTasks := (data.filter (fun u => u.status == "blocked")).length }

/-- The ambient state read by the manager-view filter chain:
`dateRange`, `selectedTeam`, `activeTab`, plus the wall clock `nowMs`
consulted by the recent-tab predicate (`new Date()` minus 7 days). -/
structure FilterConfig where
  dateRange : DateRange
  selectedTeam : String
  activeTab : String
  nowMs : Nat
deriving Repr, DecidableEq

/-- Date predicate of the filter chain: the UTC calendar date of
`created_at` is within [dateRange.start, dateRange.end] (the source
compares ISO date strings, ordered as day indices). -/
def datePred (cfg : FilterConfig) (u : DailyUpdate) : Bool :=
  decide (cfg.dateRange.startD ≤ dayOf u.created_at) &&
    decide (dayOf u.created_at ≤ cfg.dateRange.endD)

/-- Recent-tab predicate: `new Date(update.created_at) >= sevenDaysAgo`
with `sevenDaysAgo` equal to now minus seven days. -/
def recentPred (cfg : FilterConfig) (u : DailyUpdate) : Bool :=
  decide (cfg.nowMs - 7 * msPerDay ≤ u.created_at)

/-- The sequential filter chain shared verbatim by `applyFiltersToData`
and `forceApplyFilters`: date range, then team (when `selectedTeam` is
truthy), then the active-tab switch. -/
def filterChain (cfg : FilterConfig) (data : List DailyUpdate) : List DailyUpdate :=
  let f1 := data.filter (datePred cfg)
  let f2 := if cfg.selectedTeam != "" then
      f1.filter (fun u => u.team_id == cfg.selectedTeam)
    else f1
  if cfg.activeTab == "recent" then f2.filter (recentPred cfg)
  else if cfg.activeTab == "blockers" then f2.filter (fun u => optTruthy u.blocker_type)
  else if cfg.activeTab == "completed" then f2.filter (fun u => u.status == "completed")
  else if cfg.activeTab == "in-progress" then f2.filter (fun u => u.status == "in-progress")
  else if cfg.activeTab == "blocked" then f2.filter (fun u => u.status == "blocked")
  else f2

/-- `applyFiltersToData`: returns `[]` for empty input (the early
`if (!data.length) return []`), else the filter chain result. -/
def applyFiltersToData (cfg : FilterConfig) (data : List DailyUpdate) : List DailyUpdate :=
  if data.isEmpty then [] else filterChain cfg data

/-- The manager-dashboard component state relevant to the claims. -/
structure State where
  historicalData : List DailyUpdate
  filteredData : List DailyUpdate
  stats : Stats
  selectedTeam : String
  activeTab : String
  dateRange : DateRange
  dataLoaded : Bool
  isLoading : Bool
  loadingFailed : Bool
  lastRefreshed : Option Nat
deriving Repr, DecidableEq

/-- The filter configuration currently held in the component state. -/
def cfgOf (s : State) (nowMs : Nat) : FilterConfig :=
  { dateRange := s.dateRange
    selectedTeam := s.selectedTeam
    activeTab := s.activeTab
    nowMs := nowMs }

/-- `forceApplyFilters` (also reached through `applyFilters`): with no
historical data it clears `filteredData` and computes stats over the
explicit empty list; otherwise it runs the filter chain and computes
stats over the FILTERED list. -/
def forceApplyFilters (nowMs : Nat) (s : State) : State :=
  if s.historicalData.isEmpty then
    { s with filteredData := [], stats := calculateStats [] }
  else
    let filtered := filterChain (cfgOf s nowMs) s.historicalData
    { s with filteredData := filtered, stats := calculateStats filtered }

/-- `fetchData` collapsed to its outcome handling: on success store the
(cleaned) data, stamp `lastRefreshed`, mark loaded, clear loading (the
`applyFiltersToData cleanedData` call discards its result); on failure
surface one error toast, set `loadingFailed` and clear loading, leaving
`historicalData` and `filteredData` untouched. Returns the new state
and the number of error toasts shown. -/
def fetchData (outcome : Except String (List DailyUpdate)) (nowMs : Nat)
    (s : State) : State × Nat :=
  match outcome with
  | Except.ok data =>
    ({ s with
        historicalData := data
        lastRefreshed := some nowMs
        dataLoaded := true
        isLoading := false }, 0)
  | Except.error _ =>
    ({ s with loadingFailed := true, isLoading := false }, 1)

/-- The fixed silent-refresh interval of the periodic refresh effect
(5 minutes). -/
def refreshInterval : Nat := 5 * 60 * 1000

/-- The polling tick of the periodic refresh effect (30 seconds). -/
def tickMs : Nat := 30000

/-- `isReturningFromTabSwitch` from lib/tabSwitchUtil.ts: the
simplified implementation always returns false. -/
def isReturningFromTabSwitch : Bool := false

/-- One tick of the periodic-refresh interval: the interval only exists
while `dataLoaded` and a user are present; the tick body refreshes only
when the document is visible, not just returning from a tab switch, and
at least `refreshInterval` has elapsed since the last refresh. Returns
whether `fetchDataSilently` is issued at this tick. -/
def periodicTickRefreshes (dataLoaded hasUser visible : Bool)
    (now lastRefreshTime : Nat) : Bool :=
  dataLoaded && hasUser &&
    (visible && !isReturningFromTabSwitch &&
      decide (refreshInterval ≤ now - lastRefreshTime))

/-- `fetchDataSilently` collapsed to its outcome handling: on success
store the (cleaned) data and stamp `lastRefreshed` (the
`applyFiltersToData cleanedData` result is discarded); on failure the
state is left entirely unchanged. Neither branch touches `isLoading`,
`filteredData` or surfaces a toast. -/
def fetchDataSilently (outcome : Except String (List DailyUpdate)) (nowMs : Nat)
    (s : State) : State :=
  match outcome with
  | Except.ok data =>
    { s with historicalData := data, lastRefreshed := some nowMs }
  | Except.error _ => s

/-- `filterByCardType` of the manager dashboard: clear any team filter,
then set the active tab from the clicked card (total / completed /
in-progress / blocked, defaulting to all). -/
def filterByCardType (filterType : String) (s : State) : State :=
  let s1 := if s.selectedTeam != "" then { s with selectedTeam := "" } else s
  let tab :=
    if filterType == "total" then "all"
    else if filterType == "completed" then "completed"
    else if filterType == "in-progress" then "in-progress"
    else if filterType == "blocked" then "blocked"
    else "all"
  { s1 with activeTab := tab }

end ManagerView

/-- A localStorage snapshot as read by `tryRecoverFromLocalStorage`:
the parsed email of the `aditi_user_cache` record, the email extracted
from a `dashboard_*@*` key when the record is absent, the stored chunk
count, the stored chunk contents by index, and the legacy whole-set
entry. -/
structure LocalCache where
  cachedUserEmail : Option String
  dashboardKeyEmail : Option String
  chunkCount : Option Nat
  chunks : Nat → Option (List DailyUpdate)
  legacy : Option (List DailyUpdate)

/-- The chunk-combining loop of `tryRecoverFromLocalStorage`: for
i in [0, chunkCount), append the stored chunk i when present. -/
def combineChunks (chunks : Nat → Option (List DailyUpdate)) : Nat → List DailyUpdate
  | 0 => []
  | n + 1 => combineChunks chunks n ++ ((chunks n).getD [])

/-- `tryRecoverFromLocalStorage`: resolve an email (cached identity
record first, key scan second); with no email, fail. With an email,
when a chunk count is stored, combine the chunks and use the result if
non-empty; otherwise fall back to the legacy whole-set entry. Returns
the recovered update set, if any. -/
def tryRecoverFromLocalStorage (c : LocalCache) : Option (List DailyUpdate) :=
  let userEmail :=
    match c.cachedUserEmail with
    | some e => some e
    | none => c.dashboardKeyEmail
  match userEmail with
  | none => none
  | some _ =>
    match c.chunkCount with
    | some chunkCount =>
      let combinedData := combineChunks c.chunks chunkCount
      if combinedData.length > 0 then some combinedData else c.legacy
    | none => c.legacy

/-- A small constructor for sample rows used in concrete evaluations. -/
def mkUpdate (id email team : String) (t : Nat) (st : String)
    (bt : Option String) : DailyUpdate :=
  { id := id
    employee_email := email
    employee_name := "Example Employee"
    team_id := team
    created_at := t
    tasks_completed := "work item"
    story_points := none
    priority := "Medium"
    status := st
    blocker_type := bt
    blocker_description := none
    additional_notes := none }

/-- A completed sample update. -/
def sampleCompleted : DailyUpdate := mkUpdate "1" "a@x.com" "t1" 1000 "completed" none

/-- An in-progress sample update. -/
def sampleInProgress : DailyUpdate := mkUpdate "2" "a@x.com" "t1" 2000 "in-progress" none

/-- A blocked sample update. -/
def sampleBlocked : DailyUpdate := mkUpdate "3" "a@x.com" "t1" 3000 "blocked" none

/-- A user-dashboard state holding one previously displayed update. -/
def c1State : UserView.State :=
  { userUpdates := [sampleCompleted]
    filteredUpdates := [sampleCompleted]
    stats := UserView.calculateStats [sampleCompleted]
    activeFilter := "all"
    dataLoaded := true
    isLoading := false }

/-- A user-dashboard state with three updates of distinct statuses and
the blocked filter active. -/
def c2State : UserView.State :=
  { userUpdates := [sampleCompleted, sampleInProgress, sampleBlocked]
    filteredUpdates := []
    stats := { totalUpdates := 0, completedTasks := 0, inProgressTasks := 0, blockedTasks := 0 }
    activeFilter := "blocked"
    dataLoaded := true
    isLoading := false }

/-- A manager-dashboard state holding one previously displayed update. -/
def m0State : ManagerView.State :=
  { historicalData := [sampleCompleted]
    filteredData := [sampleCompleted]
    stats := ManagerView.calculateStats [sampleCompleted]
    selectedTeam := ""
    activeTab := "all"
    dateRange := { startD := 0, endD := 1 }
    dataLoaded := true
    isLoading := false
    loadingFailed := false
    lastRefreshed := none }

/-- A localStorage snapshot with both a two-chunk representation and a
legacy whole-set entry. -/
def c9Cache : LocalCache :=
  { cachedUserEmail := some "a@x.com"
    dashboardKeyEmail := none
    chunkCount := some 2
    chunks := fun i =>
      if i == 0 then some [sampleCompleted]
      else if i == 1 then some [sampleBlocked]
      else none
    legacy := some [sampleInProgress] }

theorem three_disjoint_counts {α : Type} (p q r : α → Bool)
    (hpq : ∀ a, p a = true → q a = false)
    (hpr : ∀ a, p a = true → r a = false)
    (hqr : ∀ a, q a = true → r a = false) :
    ∀ l : List α,
      (l.filter p).length + (l.filter q).length + (l.filter r).length ≤ l.length := by
  intro l
  induction l with
  | nil => simp
  | cons a t ih =>
    cases hp : p a
    · cases hq : q a
      · cases hr : r a <;> simp [List.filter_cons, hp, hq, hr] <;> omega
      · have hr0 := hqr a hq
        simp [List.filter_cons, hp, hq, hr0]
        omega
    · have hq0 := hpq a hp
      have hr0 := hpr a hp
      simp [List.filter_cons, hp, hq0, hr0]
      omega

theorem status_eq_completed_not_inprogress (u : DailyUpdate)
    (h : (u.status == "completed") = true) : (u.status == "in-progress") = false := by
  have he : u.status = "completed" := by simpa using h
  rw [he]; decide

theorem status_eq_completed_not_blocked (u : DailyUpdate)
    (h : (u.status == "completed") = true) : (u.status == "blocked") = false := by
  have he : u.status = "completed" := by simpa using h
  rw [he]; decide

theorem status_eq_inprogress_not_blocked (u : DailyUpdate)
    (h : (u.status == "in-progress") = true) : (u.status == "blocked") = false := by
  have he : u.status = "in-progress" := by simpa using h
  rw [he]; decide

theorem status_counts_le (l : List DailyUpdate) :
    (l.filter (fun u => u.status == "completed")).length +
      (l.filter (fun u => u.status == "in-progress")).length +
      (l.filter (fun u => u.status == "blocked")).length ≤ l.length :=
  three_disjoint_counts _ _ _
    status_eq_completed_not_inprogress
    status_eq_completed_not_blocked
    status_eq_inprogress_not_blocked l

theorem attemptFetch_all_errors :
    ∀ (outs : List (Except String (List DailyUpdate))) (rc m : Nat),
      outs ≠ [] → (∀ o ∈ outs, ∃ e, o = Except.error e) →
      ∃ e, (UserView.attemptFetch outs rc m).1 = Except.error e := by
  intro outs
  induction outs with
  | nil => intro rc m h _; exact absurd rfl h
  | cons o rest ih =>
    intro rc m _ hall
    obtain ⟨e, he⟩ := hall o (List.mem_cons_self o rest)
    subst he
    by_cases hlt : rc + 1 < m
    · by_cases hrest : rest = []
      · subst hrest
        exact ⟨"no outcome", by simp [UserView.attemptFetch, hlt]⟩
      · obtain ⟨e2, he2⟩ :=
          ih (rc + 1) m hrest (fun o ho => hall o (List.mem_cons_of_mem _ ho))
        exact ⟨e2, by simp [UserView.attemptFetch, hlt, he2]⟩
    · exact ⟨e, by simp [UserView.attemptFetch, hlt]⟩

theorem attemptFetch_retry_delays (es : List String) :
    ∀ (rc m : Nat) (d : List DailyUpdate)
      (rest : List (Except String (List DailyUpdate))),
      rc + es.length < m →
      UserView.attemptFetch (es.map Except.error ++ Except.ok d :: rest) rc m =
        (Except.ok d, (List.range es.length).map (fun i => 1000 * (rc + 1 + i))) := by
  induction es with
  | nil => intro rc m d rest _; rfl
  | cons e es ih =>
    intro rc m d rest h
    have hlt : rc + 1 < m := by simp at h; omega
    have hrec : (rc + 1) + es.length < m := by simp at h; omega
    simp only [List.map_cons, List.cons_append, UserView.attemptFetch]
    rw [if_pos hlt]
    simp only [List.append_eq]
    rw [ih (rc + 1) m d rest hrec]
    simp only [List.length_cons, List.range_succ_eq_map, List.map_cons, List.map_map]
    have h0 : 1000 * (rc + 1) = 1000 * (rc + 1 + 0) := by omega
    have hmap : List.map (fun i => 1000 * (rc + 1 + 1 + i)) (List.range es.length) =
        List.map ((fun i => 1000 * (rc + 1 + i)) ∘ Nat.succ) (List.range es.length) := by
      apply List.map_congr_left
      intro i _
      simp only [Function.comp]
      omega
    rw [h0, hmap]

theorem filterChain_idem (cfg : ManagerView.FilterConfig) (data : List DailyUpdate) :
    ManagerView.filterChain cfg (ManagerView.filterChain cfg data) =
      ManagerView.filterChain cfg data := by
  simp only [ManagerView.filterChain]
  split_ifs <;>
    simp only [List.filter_filter] <;>
    refine List.filter_congr (fun x hx => ?_) <;>
    cases h1 : ManagerView.datePred cfg x <;>
    cases h2 : (x.team_id == cfg.selectedTeam) <;>
    cases h3 : ManagerView.recentPred cfg x <;>
    cases h4 : optTruthy x.blocker_type <;>
    cases h5 : (x.status == "completed") <;>
    cases h6 : (x.status == "in-progress") <;>
    cases h7 : (x.status == "blocked") <;>
    rfl

/-- C1 counterexample: starting from a state displaying one update, a
user-view fetch whose three attempts all fail does NOT leave the
displayed set unchanged: `fetchUserUpdates` resets `userUpdates` to
empty, overwriting the non-empty displayed set. -/
theorem fetch_exhausted_clears_user_view :
    c1State.userUpdates ≠ [] ∧
    (UserView.fetchUserUpdates
        [Except.error "network", Except.error "network", Except.error "network"]
        c1State).1.userUpdates = [] := by
  constructor
  · simp [c1State]
  · rfl

/-- C1 (amended): on exhausting its retry budget a fetch surfaces the
failure exactly once in both views; the manager-view `fetchData` leaves
the previously displayed set unchanged, but the user-view
`fetchUserUpdates` resets the displayed set (and its filtered view and
stats) to empty. -/
theorem fetch_exhausted_amended :
    (∀ (s : UserView.State) (outs : List (Except String (List DailyUpdate))),
      outs ≠ [] → (∀ o ∈ outs, ∃ e, o = Except.error e) →
      (UserView.fetchUserUpdates outs s).2 = 1 ∧
      (UserView.fetchUserUpdates outs s).1.userUpdates = [] ∧
      (UserView.fetchUserUpdates outs s).1.filteredUpdates = []) ∧
    (∀ (t : ManagerView.State) (e : String) (now : Nat),
      (ManagerView.fetchData (Except.error e) now t).2 = 1 ∧
      (ManagerView.fetchData (Except.error e) now t).1.historicalData =
        t.historicalData ∧
      (ManagerView.fetchData (Except.error e) now t).1.filteredData =
        t.filteredData) := by
  constructor
  · intro s outs hne hall
    obtain ⟨e, he⟩ :=
      attemptFetch_all_errors outs 0 UserView.maxRetriesProd hne hall
    refine ⟨?_, ?_, ?_⟩ <;> simp [UserView.fetchUserUpdates, he]
  · intro t e now
    exact ⟨rfl, rfl, rfl⟩

/-- C1 amended witness: the amended behaviour evaluated at a concrete
failing fetch in each view. -/
theorem fetch_exhausted_amended_witness :
    (UserView.fetchUserUpdates [Except.error "boom"] c1State).1.userUpdates = [] ∧
    (ManagerView.fetchData (Except.error "boom") 0 m0State).1.historicalData =
      m0State.historicalData := by
  constructor
  · exact (fetch_exhausted_amended.1 c1State [Except.error "boom"]
      (by simp)
      (by intro o ho; simp at ho; exact ⟨"boom", ho⟩)).2.1
  · exact (fetch_exhausted_amended.2 m0State "boom" 0).2.1

/-- C2 counterexample: with three fetched updates of statuses
completed, in-progress and blocked and the blocked filter active, the
user dashboard displays stats whose total (3) differs from the length
of the filtered set (1): `applyFilters` computes stats over the full
fetched set. -/
theorem stats_not_over_filtered_set :
    (UserView.applyFilters c2State).stats.totalUpdates ≠
      (UserView.applyFilters c2State).filteredUpdates.length := by
  decide

/-- C2 (amended): the manager view computes the displayed stats over
the currently filtered set, with stats.total equal to the filtered
length and the completed, in-progress and blocked counts summing to at
most the total; the user view instead computes its stats over the full
fetched set (leaving them untouched when that set is empty). -/
theorem stats_aggregation_amended :
    (∀ (now : Nat) (s : ManagerView.State),
      (ManagerView.forceApplyFilters now s).stats =
        ManagerView.calculateStats
          (ManagerView.forceApplyFilters now s).filteredData ∧
      (ManagerView.forceApplyFilters now s).stats.totalUpdates =
        (ManagerView.forceApplyFilters now s).filteredData.length ∧
      (ManagerView.forceApplyFilters now s).stats.completedTasks +
          (ManagerView.forceApplyFilters now s).stats.inProgressTasks +
          (ManagerView.forceApplyFilters now s).stats.stuckTasks ≤
        (ManagerView.forceApplyFilters now s).stats.totalUpdates) ∧
    (∀ (u : UserView.State),
      (UserView.applyFilters u).stats =
        if u.userUpdates.isEmpty then u.stats
        else UserView.calculateStats u.userUpdates) := by
  constructor
  · intro now s
    by_cases h : s.historicalData.isEmpty
    · refine ⟨?_, ?_, ?_⟩ <;>
        simp [ManagerView.forceApplyFilters, h, ManagerView.calculateStats]
    · have hd : ManagerView.forceApplyFilters now s =
          { s with
            filteredData :=
              ManagerView.filterChain (ManagerView.cfgOf s now) s.historicalData
            stats :=
              ManagerView.calculateStats
                (ManagerView.filterChain (ManagerView.cfgOf s now) s.historicalData) } := by
        simp [ManagerView.forceApplyFilters, h]
      rw [hd]
      exact ⟨rfl, rfl, status_counts_le _⟩
  · intro u
    by_cases h : u.userUpdates.isEmpty <;> simp [UserView.applyFilters, h]

/-- C3 counterexample: for the one-day range covering day 0, an update
at the last millisecond of the end day (23:59:59.999) is included by
the user-view fetch range but excluded by the manager-view fetch range,
so millisecond-inclusive bounds do not hold on every fetch path. -/
theorem manager_range_excludes_end_millis :
    userFetchInRange { startD := 0, endD := 0 } 86399999 = true ∧
    managerFetchInRange { startD := 0, endD := 0 } 86399999 = false := by
  decide

/-- C3 (amended): the user-view fetch bound is inclusive at millisecond
precision on both ends, and one millisecond outside either bound is
excluded; the manager-view fetch shares the lower bound but its upper
bound is end 23:59:59.000, so it includes that instant and excludes the
remaining 999 milliseconds of the end day. -/
theorem date_range_bounds_amended (r : DateRange)
    (hr : r.startD ≤ r.endD) (hpos : 0 < r.startD) :
    userFetchInRange r (r.startD * msPerDay) = true ∧
    userFetchInRange r (r.endD * msPerDay + 86399999) = true ∧
    userFetchInRange r (r.startD * msPerDay - 1) = false ∧
    userFetchInRange r (r.endD * msPerDay + 86400000) = false ∧
    managerFetchInRange r (r.startD * msPerDay) = true ∧
    managerFetchInRange r (r.startD * msPerDay - 1) = false ∧
    managerFetchInRange r (r.endD * msPerDay + 86399000) = true ∧
    managerFetchInRange r (r.endD * msPerDay + 86399001) = false := by
  have hm : r.startD * msPerDay ≤ r.endD * msPerDay :=
    Nat.mul_le_mul_right msPerDay hr
  unfold userFetchInRange managerFetchInRange msPerDay at *
  refine ⟨?_, ?_, ?_, ?_, ?_, ?_, ?_, ?_⟩ <;>
    simp only [Bool.and_eq_true, decide_eq_true_eq, Bool.and_eq_false_iff,
      decide_eq_false_iff_not, not_le] <;>
    omega

/-- C3 amended witness: the amended bounds evaluated at the concrete
range from day 1 to day 2. -/
theorem date_range_bounds_amended_witness :
    (1 ≤ 2 ∧ 0 < 1) ∧
    userFetchInRange { startD := 1, endD := 2 } (1 * msPerDay) = true ∧
    managerFetchInRange { startD := 1, endD := 2 }
      (2 * msPerDay + 86399001) = false := by
  have h := date_range_bounds_amended { startD := 1, endD := 2 }
    (by decide) (by decide)
  exact ⟨⟨by decide, by decide⟩, h.1, h.2.2.2.2.2.2.2⟩

/-- C4: the filter engine is idempotent: for every update set and every
filter configuration (date range, team, tab, clock), applying
`applyFiltersToData` twice equals applying it once. -/
theorem filter_engine_idempotent (cfg : ManagerView.FilterConfig)
    (data : List DailyUpdate) :
    ManagerView.applyFiltersToData cfg (ManagerView.applyFiltersToData cfg data) =
      ManagerView.applyFiltersToData cfg data := by
  unfold ManagerView.applyFiltersToData
  by_cases h : data.isEmpty
  · simp [h]
  · simp only [h, Bool.false_eq_true, if_false]
    by_cases h2 : (ManagerView.filterChain cfg data).isEmpty
    · rw [if_pos h2, List.isEmpty_iff.mp h2]
    · rw [if_neg (by simp [h2]), filterChain_idem]

/-- C5: for updates visible in the dashboards (a user-role viewer only
ever sees updates it owns, since the fetch filters on the viewer's
email), `isTaskEditable` agrees exactly with the specified rule: edit
permitted iff the role is admin or manager, or the viewer owns the
update and its status is to-do or in-progress. -/
theorem edit_authorization_rule (role status : String) (owns : Bool)
    (hrole : role = "user" ∨ role = "manager" ∨ role = "admin")
    (howns : role = "user" → owns = true) :
    UserView.isTaskEditable role status = editPermittedSpec role owns status := by
  rcases hrole with h | h | h <;> subst h
  · rw [howns rfl]
    simp [UserView.isTaskEditable, editPermittedSpec]
  · simp [UserView.isTaskEditable, editPermittedSpec]
  · simp [UserView.isTaskEditable, editPermittedSpec]

/-- C5 witness: the rule evaluated for a user-owned completed update. -/
theorem edit_authorization_rule_witness :
    (("user" : String) = "user" ∨ ("user" : String) = "manager" ∨
      ("user" : String) = "admin") ∧
    UserView.isTaskEditable "user" "completed" =
      editPermittedSpec "user" true "completed" :=
  ⟨Or.inl rfl,
    edit_authorization_rule "user" "completed" true (Or.inl rfl) (fun _ => rfl)⟩

/-- C6: for every (role, status) pair, the collapsed list-view row and
the expanded detail view of the user dashboard agree on the edit
affordance: the render conditions coincide and so do the disabled
attributes. -/
theorem edit_affordance_parity (role status : String) :
    UserView.listViewShowsEdit role status =
      UserView.detailViewShowsEdit role status ∧
    UserView.listViewEditDisabled role status =
      UserView.detailViewEditDisabled role status :=
  ⟨rfl, rfl⟩

/-- C7: the retry loop sleeps `1000 * attemptCount` before each retry
(linearly growing backoff capped by the retry budget), and a fetch that
fails twice then succeeds within the production budget of 3 stores the
successful response as the displayed set with no error surfaced, having
slept 1000 ms and then 2000 ms. -/
theorem retry_backoff_and_success :
    (∀ (es : List String) (rc m : Nat) (d : List DailyUpdate)
        (rest : List (Except String (List DailyUpdate))),
      rc + es.length < m →
      UserView.attemptFetch (es.map Except.error ++ Except.ok d :: rest) rc m =
        (Except.ok d, (List.range es.length).map (fun i => 1000 * (rc + 1 + i)))) ∧
    (∀ (e1 e2 : String) (d : List DailyUpdate) (s : UserView.State),
      (UserView.fetchUserUpdates
          [Except.error e1, Except.error e2, Except.ok d] s).2 = 0 ∧
      (UserView.fetchUserUpdates
          [Except.error e1, Except.error e2, Except.ok d] s).1.userUpdates = d ∧
      (UserView.attemptFetch [Except.error e1, Except.error e2, Except.ok d] 0
          UserView.maxRetriesProd).2 = [1000, 2000]) := by
  constructor
  · exact fun es => attemptFetch_retry_delays es
  · intro e1 e2 d s
    exact ⟨rfl, rfl, rfl⟩

/-- C7 witness: the backoff schedule evaluated for two failures then a
success with budget 3. -/
theorem retry_backoff_and_success_witness :
    (0 + (["a", "b"] : List String).length < 3) ∧
    UserView.attemptFetch
        (((["a", "b"] : List String).map Except.error) ++
          [Except.ok ([] : List DailyUpdate)]) 0 3 =
      (Except.ok [], [1000, 2000]) := by
  refine ⟨by decide, ?_⟩
  exact (retry_backoff_and_success.1 ["a", "b"] 0 3 [] [] (by decide)).trans rfl

/-- C8: the periodic silent refresh runs on a 30-second polling tick
strictly shorter than the fixed 5-minute (300000 ms) interval; a tick
issues the silent fetch only when data has loaded, a user is present,
the document is visible and a full interval has elapsed since the last
refresh, and it does fire once those conditions hold; the silent fetch
never touches the loading indicator or the displayed filtered set, on
failure leaves the state entirely unchanged, and on success replaces
the stored set with the response. -/
theorem silent_refresh_properties :
    (∀ (dl hu v : Bool) (now lrt : Nat),
      ManagerView.periodicTickRefreshes dl hu v now lrt = true →
      dl = true ∧ hu = true ∧ v = true ∧
        ManagerView.refreshInterval ≤ now - lrt) ∧
    (∀ (now lrt : Nat),
      ManagerView.refreshInterval ≤ now - lrt →
      ManagerView.periodicTickRefreshes true true true now lrt = true) ∧
    ManagerView.tickMs < ManagerView.refreshInterval ∧
    ManagerView.refreshInterval = 300000 ∧
    (∀ (o : Except String (List DailyUpdate)) (now : Nat)
        (s : ManagerView.State),
      (ManagerView.fetchDataSilently o now s).isLoading = s.isLoading ∧
      (ManagerView.fetchDataSilently o now s).filteredData = s.filteredData) ∧
    (∀ (e : String) (now : Nat) (s : ManagerView.State),
      ManagerView.fetchDataSilently (Except.error e) now s = s) ∧
    (∀ (d : List DailyUpdate) (now : Nat) (s : ManagerView.State),
      (ManagerView.fetchDataSilently (Except.ok d) now s).historicalData = d) := by
  refine ⟨?_, ?_, by decide, rfl, ?_, ?_, ?_⟩
  · intro dl hu v now lrt h
    simp [ManagerView.periodicTickRefreshes,
      ManagerView.isReturningFromTabSwitch] at h
    tauto
  · intro now lrt h
    simp [ManagerView.periodicTickRefreshes,
      ManagerView.isReturningFromTabSwitch, h]
  · intro o now s
    cases o <;> exact ⟨rfl, rfl⟩
  · intro e now s
    rfl
  · intro d now s
    rfl

/-- C8 witness: a tick with all gates satisfied at elapsed time exactly
one interval fires, and the gating conditions are recovered from it. -/
theorem silent_refresh_properties_witness :
    ManagerView.periodicTickRefreshes true true true 300000 0 = true ∧
    ManagerView.refreshInterval ≤ 300000 - 0 := by
  refine ⟨by decide, ?_⟩
  exact (silent_refresh_properties.1 true true true 300000 0 (by decide)).2.2.2

/-- C9: `tryRecoverFromLocalStorage` assembles the cached set from the
chunked representation (chunks concatenated in index order up to the
stored chunk count) whenever a chunk count is present and the
concatenation is non-empty — preferring it over any legacy entry — and
falls back to the legacy whole-set entry when the chunk count is absent
or the concatenation is empty. -/
theorem recovery_cache_assembly :
    (∀ (c : LocalCache) (n : Nat),
      (c.cachedUserEmail.isSome = true ∨ c.dashboardKeyEmail.isSome = true) →
      c.chunkCount = some n →
      combineChunks c.chunks n ≠ [] →
      tryRecoverFromLocalStorage c = some (combineChunks c.chunks n)) ∧
    (∀ (c : LocalCache),
      (c.cachedUserEmail.isSome = true ∨ c.dashboardKeyEmail.isSome = true) →
      c.chunkCount = none →
      tryRecoverFromLocalStorage c = c.legacy) ∧
    (∀ (c : LocalCache) (n : Nat),
      (c.cachedUserEmail.isSome = true ∨ c.dashboardKeyEmail.isSome = true) →
      c.chunkCount = some n →
      combineChunks c.chunks n = [] →
      tryRecoverFromLocalStorage c = c.legacy) := by
  refine ⟨?_, ?_, ?_⟩
  · intro c n hmail hcount hne
    unfold tryRecoverFromLocalStorage
    rcases hc : c.cachedUserEmail with _ | e
    · rcases hd : c.dashboardKeyEmail with _ | e2
      · rcases hmail with hm | hm
        · rw [hc] at hm; cases hm
        · rw [hd] at hm; cases hm
      · simp only [hc, hd, hcount]
        rw [if_pos (List.length_pos.mpr hne)]
    · simp only [hc, hcount]
      rw [if_pos (List.length_pos.mpr hne)]
  · intro c hmail hcount
    unfold tryRecoverFromLocalStorage
    rcases hc : c.cachedUserEmail with _ | e
    · rcases hd : c.dashboardKeyEmail with _ | e2
      · rcases hmail with hm | hm
        · rw [hc] at hm; cases hm
        · rw [hd] at hm; cases hm
      · simp only [hc, hd, hcount]
    · simp only [hc, hcount]
  · intro c n hmail hcount hemp
    unfold tryRecoverFromLocalStorage
    rcases hc : c.cachedUserEmail with _ | e
    · rcases hd : c.dashboardKeyEmail with _ | e2
      · rcases hmail with hm | hm
        · rw [hc] at hm; cases hm
        · rw [hd] at hm; cases hm
      · simp only [hc, hd, hcount]
        rw [if_neg (by simp [hemp])]
    · simp only [hc, hcount]
      rw [if_neg (by simp [hemp])]

/-- C9 witness: recovery from a concrete snapshot holding two chunks
and a legacy entry yields the chunk concatenation, not the legacy set. -/
theorem recovery_cache_assembly_witness :
    tryRecoverFromLocalStorage c9Cache = some [sampleCompleted, sampleBlocked] := by
  have h := recovery_cache_assembly.1 c9Cache 2 (Or.inl rfl) rfl (by decide)
  exact h.trans (by rfl)

/-- C10: clicking a stats card in the manager dashboard resets the
team filter to empty (all teams) as a side effect of setting the
active tab from the card type, while the date range and the stored
data are left unchanged. -/
theorem card_filter_resets_team (ft : String) (s : ManagerView.State) :
    (ManagerView.filterByCardType ft s).selectedTeam = "" ∧
    (ManagerView.filterByCardType ft s).dateRange = s.dateRange ∧
    (ManagerView.filterByCardType ft s).historicalData = s.historicalData ∧
    (ManagerView.filterByCardType "total" s).activeTab = "all" ∧
    (ManagerView.filterByCardType "completed" s).activeTab = "completed" ∧
    (ManagerView.filterByCardType "in-progress" s).activeTab = "in-progress" ∧
    (ManagerView.filterByCardType "blocked" s).activeTab = "blocked" := by
  unfold ManagerView.filterByCardType
  by_cases h : s.selectedTeam = "" <;> simp [h]
